import Mathlib

/-!
Verification development for the JMSListener test-server repository.

The repository holds two Python scripts:
* `TestHttpServer/transaction-test-server.py` — a fault-injection HTTP
  server (`TransactionTestHandler`) that, per request, increments a
  counter, optionally sleeps, draws a uniform random value to decide
  success or failure, parses the body for a `messageId`, and replies
  with a JSON body.
* `TestHttpServer/test-http-server.py` — an echo/logging HTTP server
  (`JMSMessageHandler`) that parses the body as JSON, logs its fields,
  and acknowledges with a JSON success body.

We shallowly embed both request handlers.  Library effects
(`random.random`, `random.choice`, `json.loads`, the clock, reading the
socket) enter as oracle fields of an environment record; the handler
logic itself is translated line by line from the source.  Python floats
are modelled as rationals: every comparison the claims touch
(`0.0 <= r <= 1.0`, `u < fail_rate` at `fail_rate` 0.0 or 1.0) is exact
on the floats involved, so the order embedding into `ℚ` is faithful.
`time.sleep` returns nothing and is not observable in the model.
-/

/-- Python values produced by `json.loads`: JSON null, booleans, numbers,
strings, arrays and objects.  Objects are association lists; `json.loads`
already collapses duplicate keys, so keys are unique and first-match
lookup agrees with Python `dict` lookup. -/
inductive JValue where
  | null : JValue
  | bool : Bool → JValue
  | num : ℚ → JValue
  | str : String → JValue
  | arr : List JValue → JValue
  | obj : List (String × JValue) → JValue


namespace JValue

/-- Python `dict.get(key)` on the association list of an object:
`some v` when the key is present, `none` (Python `None`) otherwise. -/
def lookup (kvs : List (String × JValue)) (key : String) : Option JValue :=
  (kvs.find? (fun kv => kv.1 = key)).map Prod.snd

/-- Python truthiness of a JSON-decoded value: `None`, `False`, `0`,
empty strings, empty lists and empty dicts are falsy. -/
def truthy : JValue → Bool
  | .null => false
  | .bool b => b
  | .num q => q ≠ 0
  | .str s => s ≠ ""
  | .arr l => !l.isEmpty
  | .obj l => !l.isEmpty

end JValue

/-! ## Fault-injection server (`transaction-test-server.py`) -/

/-- Console lines printed by `TransactionTestHandler.do_POST`, kept
structured (the source builds them with f-strings). -/
inductive FaultLog where
  | failure (ts : String) (count : ℕ) (status : ℕ) (reason : String) (mid : JValue)
  | success (ts : String) (count : ℕ) (mid : JValue)
  | error (ts : String) (count : ℕ) (excMsg : String)


/-- Response written by the fault server: HTTP status, the
`Content-Type` header, and the dict passed to `json.dumps` in insertion
order. -/
structure FaultResponse where
  status : ℕ
  contentType : String
  body : List (String × JValue)


/-- Outcome of one `do_POST` call: either a response was written (with
the console lines printed along the way), or an exception escaped the
handler, so no response was written at all. -/
inductive FaultOutcome where
  | responded (logs : List FaultLog) (resp : FaultResponse)
  | uncaught (logs : List FaultLog) (exc : String)


/-- Oracle inputs consumed by one `do_POST` call of the fault server.
`readResult` is the joint outcome of `self.headers.get`, `rfile.read`
and `.decode`: `.ok body` on success, `.error msg` when any of them
raises.  `parseResult` is the `json.loads` outcome on that body:
`none` models a `json.JSONDecodeError`, `some v` a successful parse. -/
structure FaultEnv where
  failRate : ℚ
  delayMs : ℤ
  draw : ℚ
  choiceIdx : Fin 4
  readResult : Except String String
  parseResult : Option JValue
  timeStr : String


/-- Table of simulated failures, exactly the `failure_types` list of the
source. -/
def failure_types : List (ℕ × String) :=
  [(500, "Internal Server Error"),
   (503, "Service Unavailable"),
   (502, "Bad Gateway"),
   (504, "Gateway Timeout")]

/-- Lines 41–45 of the source: try `json.loads`; on `JSONDecodeError`
the id is the literal `"unknown"`; on a successful parse the handler
calls `message_data.get('messageId', 'unknown')`, which raises
`AttributeError` when the decoded value is not a dict (only dicts have
`.get`). -/
def extractMessageId (parseResult : Option JValue) : Except String JValue :=
  match parseResult with
  | none => .ok (.str "unknown")
  | some (.obj kvs) => .ok ((JValue.lookup kvs "messageId").getD (.str "unknown"))
  | some _ => .error "AttributeError: object has no attribute get"

/-- Lines 92–104 of the source, the `except Exception` block.  The
f-string it prints reads the local variable `timestamp`; when the
exception was raised before line 47 that local was never assigned, so
evaluating the f-string itself raises `UnboundLocalError` and the block
neither prints nor responds.  `tsOpt` is the binding state of
`timestamp` at the moment the exception reached the block. -/
def faultExceptBlock (tsOpt : Option String) (count : ℕ) (excMsg : String)
    (logs : List FaultLog) : FaultOutcome :=
  match tsOpt with
  | none =>
      .uncaught logs "UnboundLocalError: local variable timestamp referenced before assignment"
  | some ts =>
      .responded (logs ++ [.error ts count excMsg])
        ⟨500, "application/json",
         [("error", .str ("Server exception: " ++ excMsg)),
          ("timestamp", .str ts),
          ("requestCount", .num count)]⟩

/-- Line 33 of the source:
`should_fail = random.random() < self.fail_rate`, with the drawn value
supplied by the environment.  This designation is computed before the
body is read and consults nothing but the draw and the configured
rate. -/
def shouldFail (env : FaultEnv) : Bool :=
  decide (env.draw < env.failRate)

/-- Body of `TransactionTestHandler.do_POST` (lines 25–104), given the
value of `self.request_count` before the call.  Returns the new counter
value together with the outcome.  The counter increment, the (silent)
sleep and the random draw happen before the `try` block; inside it the
body is read, the id extracted, the timestamp formatted, and one of the
two response branches taken. -/
def faultDoPOST (prevCount : ℕ) (env : FaultEnv) : ℕ × FaultOutcome :=
  let count := prevCount + 1
  let outcome :=
    match env.readResult with
    | .error e => faultExceptBlock none count e []
    | .ok _body =>
        match extractMessageId env.parseResult with
        | .error e => faultExceptBlock none count e []
        | .ok mid =>
            let ts := env.timeStr
            if shouldFail env then
              let sc := failure_types.get env.choiceIdx
              .responded [.failure ts count sc.1 sc.2 mid]
                ⟨sc.1, "application/json",
                 [("error", .str sc.2),
                  ("timestamp", .str ts),
                  ("messageId", mid),
                  ("requestCount", .num count)]⟩
            else
              .responded [.success ts count mid]
                ⟨200, "application/json",
                 [("status", .str "success"),
                  ("timestamp", .str ts),
                  ("messageId", mid),
                  ("requestCount", .num count),
                  ("message", .str "Message processed successfully")]⟩
  (count, outcome)

/-- `do_PUT` of the fault server (lines 106–108): it delegates to
`do_POST`. -/
def faultDoPUT (prevCount : ℕ) (env : FaultEnv) : ℕ × FaultOutcome :=
  faultDoPOST prevCount env

/-- Initial value of `self.request_count`, set in
`TransactionTestHandler.__init__` (line 22). -/
def handlerInitCount : ℕ := 0

/-- Sequential requests against one running server process.
`HTTPServer` (socketserver) constructs a fresh `TransactionTestHandler`
instance for every accepted connection, and with the default
`protocol_version = "HTTP/1.0"` of `BaseHTTPRequestHandler` the
connection is closed after each response, so every sequential request is
served by a brand-new handler instance whose `request_count` starts at
`handlerInitCount`. -/
def serveSequential (envs : List FaultEnv) : List FaultOutcome :=
  envs.map (fun e => (faultDoPOST handlerInitCount e).2)

/-- The `requestCount` field of the JSON body of an outcome, when a
response was written and the field is present. -/
def requestCountOf (o : FaultOutcome) : Option JValue :=
  match o with
  | .responded _ resp => JValue.lookup resp.body "requestCount"
  | .uncaught _ _ => none

/-- HTTP status of an outcome, `none` when no response was written. -/
def statusOf (o : FaultOutcome) : Option ℕ :=
  match o with
  | .responded _ resp => some resp.status
  | .uncaught _ _ => none

/-- The `messageId` field of the JSON body of an outcome, when a
response was written and the field is present. -/
def messageIdFieldOf (o : FaultOutcome) : Option JValue :=
  match o with
  | .responded _ resp => JValue.lookup resp.body "messageId"
  | .uncaught _ _ => none

/-! ## Fault-injection server startup (`main`, lines 119–160) -/

/-- Parsed command-line arguments of the fault server (argparse
defaults: port 8080, fail-rate 0.0, delay-ms 0, demo off). -/
structure CliArgs where
  port : ℤ
  failRate : ℚ
  delayMs : ℤ
  demo : Bool

/-- Configuration handed to `create_handler` and `HTTPServer` once
validation passed. -/
structure ServerConfig where
  port : ℤ
  failRate : ℚ
  delayMs : ℤ

/-- Lines 131–134 of the source: when `--demo` is set, `fail_rate` is
overwritten with 0.3 and `delay_ms` with 500, and a notice is printed;
otherwise the arguments pass through unchanged.  Returns the resolved
arguments and the lines printed. -/
def resolveDemo (a : CliArgs) : CliArgs × List String :=
  if a.demo then
    ({ a with failRate := 3/10, delayMs := 500 },
     ["Demo mode: 30% failure rate, 500ms delay"])
  else (a, [])

/-- Lines 129–144 of the source: resolve the demo override, then
validate `0.0 <= fail_rate <= 1.0`.  An out-of-range rate prints an
error and calls `sys.exit(1)` — modelled as `.error 1`, reached before
`create_handler` and the `HTTPServer` constructor, so no port is bound.
`.ok cfg` models proceeding to create the handler and bind the
listener with configuration `cfg`.  The second component is the lines
printed up to that decision. -/
def mainStartup (a : CliArgs) : Except ℕ ServerConfig × List String :=
  let r := resolveDemo a
  if ¬ (0 ≤ r.1.failRate ∧ r.1.failRate ≤ 1) then
    (.error 1, r.2 ++ ["Error: fail-rate must be between 0.0 and 1.0"])
  else
    (.ok ⟨r.1.port, r.1.failRate, r.1.delayMs⟩, r.2)

/-! ## Echo server (`test-http-server.py`) -/

/-- Console lines printed by `JMSMessageHandler.do_POST`.  Constant
banner lines (`"="*50`, the reception header) are elided; the lines
that carry data are kept structured.  A `field` line is one
`print(f"<label>: {...}")`; a `prop` line is one iteration of the
properties loop. -/
inductive EchoLog where
  | field (label : String) (value : JValue)
  | prop (key : String) (value : JValue)
  | propsHeader
  | parseError
  | excError

/-- Response written by the echo server: either `send_response` plus a
JSON body (dict in insertion order), or `send_error` with a status and
its message. -/
inductive EchoResult where
  | jsonResp (status : ℕ) (contentType : String) (body : List (String × JValue))
  | errResp (status : ℕ) (message : String)

/-- One `do_POST` run of the echo server: the lines printed and the
response written.  Every run writes some response — the outer
`except Exception` block of this handler uses no unassigned local, so
no exception escapes it. -/
structure EchoRun where
  logs : List EchoLog
  result : EchoResult

/-- Oracle inputs of one echo-server `do_POST` call: the body read
outcome, the `json.loads` outcome (`none` models `JSONDecodeError`),
and `int(time.time() * 1000)`. -/
structure EchoEnv where
  readResult : Except String String
  parseResult : Option JValue
  nowMs : ℤ

/-- One `print(f"<label>: {message_data.get(key, 'N/A')}")` line:
missing keys render as the literal string `N/A`. -/
def envelopeField (kvs : List (String × JValue)) (label key : String) : EchoLog :=
  .field label ((JValue.lookup kvs key).getD (.str "N/A"))

/-- Lines 24–30 of the echo source: the four unconditional field lines
followed by the correlation-id line, which is printed only when
`message_data.get('correlationId')` is truthy. -/
def echoHeadLogs (kvs : List (String × JValue)) : List EchoLog :=
  [envelopeField kvs "Message ID" "messageId",
   envelopeField kvs "Message Type" "messageType",
   envelopeField kvs "Content Type" "contentType",
   envelopeField kvs "Content" "content"] ++
  (match JValue.lookup kvs "correlationId" with
   | some v => if v.truthy then [.field "Correlation ID" v] else []
   | none => [])

/-- Lines 37–39 of the echo source: the three trailing field lines. -/
def echoTailLogs (kvs : List (String × JValue)) : List EchoLog :=
  [envelopeField kvs "JMS Timestamp" "jmsTimestamp",
   envelopeField kvs "Priority" "priority",
   envelopeField kvs "Delivery Mode" "deliveryMode"]

/-- Lines 43–54 of the echo source: the HTTP 200 acknowledgment.
`message_data.get('messageId')` has no default, so an absent id becomes
Python `None`, serialised as JSON `null`. -/
def echoSuccess (kvs : List (String × JValue)) (nowMs : ℤ) : EchoResult :=
  .jsonResp 200 "application/json"
    [("status", .str "success"),
     ("message", .str "Message processed successfully"),
     ("messageId", (JValue.lookup kvs "messageId").getD .null),
     ("timestamp", .num nowMs)]

/-- Body of `JMSMessageHandler.do_POST` (lines 8–62).  A failed body
read reaches the outer `except Exception` → `send_error(500)`.  A
`JSONDecodeError` reaches the inner handler → `send_error(400,
"Invalid JSON")`.  A body decoding to a non-dict raises
`AttributeError` at the first `.get` call, which the inner handler does
not catch → outer handler → 500.  A truthy non-dict `properties` value
raises `AttributeError` at `.items()` after the head lines and the
`Properties:` header were printed → outer handler → 500.  Otherwise
the full block is printed and HTTP 200 is sent. -/
def echoDoPOST (env : EchoEnv) : EchoRun :=
  match env.readResult with
  | .error _ => ⟨[.excError], .errResp 500 "Internal server error"⟩
  | .ok _ =>
    match env.parseResult with
    | none => ⟨[.parseError], .errResp 400 "Invalid JSON"⟩
    | some (.obj kvs) =>
        match JValue.lookup kvs "properties" with
        | some v =>
            if v.truthy then
              match v with
              | .obj pkvs =>
                  ⟨echoHeadLogs kvs ++ [.propsHeader]
                     ++ pkvs.map (fun kv => .prop kv.1 kv.2)
                     ++ echoTailLogs kvs,
                   echoSuccess kvs env.nowMs⟩
              | _ =>
                  ⟨echoHeadLogs kvs ++ [.propsHeader, .excError],
                   .errResp 500 "Internal server error"⟩
            else
              ⟨echoHeadLogs kvs ++ echoTailLogs kvs, echoSuccess kvs env.nowMs⟩
        | none =>
            ⟨echoHeadLogs kvs ++ echoTailLogs kvs, echoSuccess kvs env.nowMs⟩
    | some _ => ⟨[.excError], .errResp 500 "Internal server error"⟩

/-- `do_PUT` of the echo server (lines 64–66): it delegates to
`do_POST`. -/
def echoDoPUT (env : EchoEnv) : EchoRun :=
  echoDoPOST env

/-- Decodable bodies on the normal path of the fault handler: the body
either fails to parse (the id falls back to `"unknown"`) or parses to a
dict (`.get` succeeds).  Everything else raises `AttributeError`. -/
def parsesToObjOrFails : Option JValue → Bool
  | none => true
  | some (.obj _) => true
  | some _ => false

/-- Decidable form of the side condition under which the echo success
path avoids the `.items()` `AttributeError`: the `properties` value is
absent, falsy, or a dict. -/
def propsObjOrFalsy (kvs : List (String × JValue)) : Bool :=
  match JValue.lookup kvs "properties" with
  | none => true
  | some (.obj _) => true
  | some v => !v.truthy

/-- Body of the 200 response of an `EchoResult`, empty for error
responses. -/
def echoBodyOf : EchoResult → List (String × JValue)
  | .jsonResp _ _ body => body
  | .errResp _ _ => []

/-- Label/key pairs of the envelope fields the echo server prints with
an `N/A` default (lines 24–27 and 37–39 of the echo source). -/
def envelopeLabels : List (String × String) :=
  [("Message ID", "messageId"), ("Message Type", "messageType"),
   ("Content Type", "contentType"), ("Content", "content"),
   ("JMS Timestamp", "jmsTimestamp"), ("Priority", "priority"),
   ("Delivery Mode", "deliveryMode")]

/-! ## Shared helper lemmas -/

/-- Every entry of the `failure_types` table has a status among
500, 502, 503, 504. -/
lemma failure_types_status_mem (j : Fin 4) :
    (failure_types.get j).1 ∈ [500, 502, 503, 504] := by
  fin_cases j <;> decide

/-- On a body that fails to parse or parses to a dict, the id
extraction succeeds. -/
lemma extractMessageId_ok (p : Option JValue) (h : parsesToObjOrFails p = true) :
    ∃ m, extractMessageId p = .ok m := by
  cases p with
  | none => exact ⟨.str "unknown", rfl⟩
  | some v =>
      cases v <;>
        first
          | exact ⟨_, rfl⟩
          | simp [parsesToObjOrFails] at h

/-- When the body read and parse succeed on a dict (or fail to parse)
and the `properties` value is well-shaped, the echo handler prints the
head lines, some middle lines, then the tail lines, and answers with
the 200 success body. -/
lemma echoDoPOST_success_shape (env : EchoEnv) (b : String)
    (kvs : List (String × JValue))
    (hread : env.readResult = .ok b)
    (hparse : env.parseResult = some (.obj kvs))
    (hprops : propsObjOrFalsy kvs = true) :
    (echoDoPOST env).result = echoSuccess kvs env.nowMs ∧
    ∃ mid, (echoDoPOST env).logs = echoHeadLogs kvs ++ mid ++ echoTailLogs kvs := by
  cases hp : JValue.lookup kvs "properties" with
  | none =>
      refine ⟨?_, [], ?_⟩ <;> simp [echoDoPOST, hread, hparse, hp]
  | some v =>
      cases v with
      | obj pkvs =>
          by_cases ht : (JValue.obj pkvs).truthy = true
          · refine ⟨?_, [.propsHeader] ++ pkvs.map (fun kv => .prop kv.1 kv.2), ?_⟩ <;>
              simp [echoDoPOST, hread, hparse, hp, ht]
          · refine ⟨?_, [], ?_⟩ <;>
              simp [echoDoPOST, hread, hparse, hp, Bool.not_eq_true _ ▸ ht]
      | null => simp [propsObjOrFalsy, hp, JValue.truthy] at hprops
                refine ⟨?_, [], ?_⟩ <;> simp [echoDoPOST, hread, hparse, hp, JValue.truthy]
      | bool bb =>
          simp [propsObjOrFalsy, hp, JValue.truthy] at hprops
          subst hprops
          refine ⟨?_, [], ?_⟩ <;> simp [echoDoPOST, hread, hparse, hp, JValue.truthy]
      | num q =>
          simp [propsObjOrFalsy, hp, JValue.truthy] at hprops
          refine ⟨?_, [], ?_⟩ <;> simp [echoDoPOST, hread, hparse, hp, JValue.truthy, hprops]
      | str s =>
          simp [propsObjOrFalsy, hp, JValue.truthy] at hprops
          refine ⟨?_, [], ?_⟩ <;> simp [echoDoPOST, hread, hparse, hp, JValue.truthy, hprops]
      | arr l =>
          simp [propsObjOrFalsy, hp, JValue.truthy] at hprops
          refine ⟨?_, [], ?_⟩ <;> simp [echoDoPOST, hread, hparse, hp, JValue.truthy, hprops]

/-! ## Concrete request environments used as inputs -/

/-- Well-formed request: empty JSON object body, configuration that
never fails. -/
def plainEnv : FaultEnv :=
  ⟨0, 0, 1/2, 0, .ok "\x7b\x7d", some (.obj []), "2026-01-01 00:00:00.000"⟩

/-- Request whose body read raises (for example the client closed the
connection before sending `Content-Length` bytes). -/
def readErrorEnv : FaultEnv :=
  ⟨1/2, 0, 1/4, 0, .error "Connection reset by peer", none, ""⟩

/-- Request whose body is not JSON. -/
def noParseEnv : FaultEnv :=
  ⟨0, 0, 1/2, 0, .ok "not json", none, "2026-01-01 00:00:00.000"⟩

/-- Fault-server request carrying a JSON object body, with `failRate` 1
and the third failure type drawn. -/
def objBodyEnv : FaultEnv :=
  ⟨1, 0, 1/2, 2, .ok "body-a", some (.obj [("messageId", .str "a")]), "ts"⟩

/-- The same pseudo-random draws as `objBodyEnv`, but the body is the
valid JSON text `123`, which decodes to a number, not a dict. -/
def numBodyEnv : FaultEnv :=
  ⟨1, 0, 1/2, 2, .ok "123", some (.num 123), "ts"⟩

/-- Echo-server request whose body is the valid JSON text `123`. -/
def echoNumberEnv : EchoEnv :=
  ⟨.ok "123", some (.num 123), 1700000000000⟩

/-- Echo-server request whose body is not JSON. -/
def echoBadJsonEnv : EchoEnv :=
  ⟨.ok "bad json", none, 1700000000000⟩

/-! ## Claim theorems -/

/-- Numeric value of the `requestCount` field of a written response
body, `none` when absent or non-numeric. -/
def requestCountValOf (o : FaultOutcome) : Option ℚ :=
  match requestCountOf o with
  | some (.num q) => some q
  | _ => none

/-- Whenever the fault handler writes a success or failure response,
its `requestCount` field is the incremented instance counter. -/
lemma requestCountVal_of_normal (prev : ℕ) (env : FaultEnv) (b : String)
    (hread : env.readResult = .ok b)
    (hok : parsesToObjOrFails env.parseResult = true) :
    requestCountValOf (faultDoPOST prev env).2 = some ((prev + 1 : ℕ) : ℚ) := by
  obtain ⟨m, hm⟩ := extractMessageId_ok env.parseResult hok
  by_cases hsf : shouldFail env = true <;>
    simp [faultDoPOST, hread, hm, hsf, requestCountValOf, requestCountOf,
          JValue.lookup]

/-- Claim C1 (code evaluated at the failing input): two sequential
requests against one running fault-server process both answer with
`requestCount` 1.  The counter lives on the handler object, and
`HTTPServer` builds a fresh handler for every connection (one request
per connection under the default `HTTP/1.0` protocol version), so the
field never reaches 2 — refuting strict increase across requests for
the lifetime of the process. -/
theorem fault_requestCount_stuck_at_one :
    (serveSequential [plainEnv, plainEnv]).map requestCountValOf =
      [some 1, some 1] := by
  simp [serveSequential, handlerInitCount,
        requestCountVal_of_normal 0 plainEnv "\x7b\x7d" rfl rfl]

/-- Claim C2 (code evaluated at the failing input): when reading the
request body raises, the `except` block itself raises
`UnboundLocalError` — its log line reads the local `timestamp`, which
is only assigned later at line 47 — so no `ERROR` line is printed and
no HTTP 500 response is written. -/
theorem fault_readError_escapes_handler :
    faultDoPOST handlerInitCount readErrorEnv =
      (1, .uncaught []
        "UnboundLocalError: local variable timestamp referenced before assignment") := rfl

/-- Claim C3: on any request whose body read succeeds but fails to
parse as JSON, the fault handler uses the literal `"unknown"` as the
message id, no exception escapes the extraction, and a normal success
or failure response carrying that id is written. -/
theorem fault_unparsed_body_uses_unknown (prev : ℕ) (env : FaultEnv) (b : String)
    (hread : env.readResult = .ok b) (hparse : env.parseResult = none) :
    messageIdFieldOf (faultDoPOST prev env).2 = some (.str "unknown") ∧
    ∃ s, statusOf (faultDoPOST prev env).2 = some s ∧
      (s = 200 ∨ s ∈ [500, 502, 503, 504]) := by
  by_cases hsf : shouldFail env = true
  · refine ⟨?_, (failure_types.get env.choiceIdx).1, ?_, ?_⟩
    · simp [faultDoPOST, hread, hparse, extractMessageId, hsf, messageIdFieldOf,
            JValue.lookup]
    · simp [faultDoPOST, hread, hparse, extractMessageId, hsf, statusOf]
    · exact Or.inr (failure_types_status_mem env.choiceIdx)
  · refine ⟨?_, 200, ?_, Or.inl rfl⟩
    · simp [faultDoPOST, hread, hparse, extractMessageId, hsf, messageIdFieldOf,
            JValue.lookup]
    · simp [faultDoPOST, hread, hparse, extractMessageId, hsf, statusOf]

/-- Witness for claim C3 at a concrete non-JSON body. -/
theorem fault_unparsed_body_uses_unknown_witness :
    messageIdFieldOf (faultDoPOST 0 noParseEnv).2 = some (.str "unknown") ∧
    ∃ s, statusOf (faultDoPOST 0 noParseEnv).2 = some s ∧
      (s = 200 ∨ s ∈ [500, 502, 503, 504]) :=
  fault_unparsed_body_uses_unknown 0 noParseEnv "not json" rfl rfl

/-- Claim C5: on any request whose body read succeeds but fails to
parse as JSON, the echo handler logs the parse error and answers
HTTP 400 with the message `Invalid JSON`; the result is a written
response, not a crash (no outcome of `echoDoPOST` models an escaped
exception). -/
theorem echo_bad_json_gets_400 (env : EchoEnv) (b : String)
    (hread : env.readResult = .ok b) (hparse : env.parseResult = none) :
    (echoDoPOST env).result = .errResp 400 "Invalid JSON" ∧
    (echoDoPOST env).logs = [.parseError] := by
  constructor <;> simp [echoDoPOST, hread, hparse]

/-- Witness for claim C5 at a concrete non-JSON body. -/
theorem echo_bad_json_gets_400_witness :
    (echoDoPOST echoBadJsonEnv).result = .errResp 400 "Invalid JSON" ∧
    (echoDoPOST echoBadJsonEnv).logs = [.parseError] :=
  echo_bad_json_gets_400 echoBadJsonEnv "bad json" rfl rfl

/-- Claim C9: both servers define their PUT handler as a delegation to
the POST handler, so for every environment — every body, random draw,
clock value and counter state — PUT returns exactly what POST
returns. -/
theorem put_handled_as_post (prev : ℕ) (envF : FaultEnv) (envE : EchoEnv) :
    faultDoPUT prev envF = faultDoPOST prev envF ∧
    echoDoPUT envE = echoDoPOST envE :=
  ⟨rfl, rfl⟩

/-- Echo-server request with a JSON object body carrying a message
id. -/
def echoObjEnv : EchoEnv :=
  ⟨.ok "body-obj", some (.obj [("messageId", .str "m1")]), 1700000000000⟩

/-- Claim C4, counterexample: the body `123` parses successfully as
JSON, yet the echo handler answers `send_error(500)` — the decoded
value is not a dict, so the first `.get` call raises `AttributeError`,
which the inner `except json.JSONDecodeError` does not catch — instead
of the claimed HTTP 200 success body. -/
theorem echo_number_body_not_200 :
    (echoDoPOST echoNumberEnv).result = .errResp 500 "Internal server error" := rfl

/-- Claim C4 (amended to bodies that parse as JSON objects whose
`properties` entry, when present and truthy, is itself an object): the
echo handler answers HTTP 200 with the success body, echoes the input
message id exactly, and renders every missing envelope field as the
literal `N/A` in its log block. -/
theorem echo_object_body_acknowledged (env : EchoEnv) (b : String)
    (kvs : List (String × JValue))
    (hread : env.readResult = .ok b)
    (hparse : env.parseResult = some (.obj kvs))
    (hprops : propsObjOrFalsy kvs = true) :
    (echoDoPOST env).result = .jsonResp 200 "application/json"
        [("status", .str "success"),
         ("message", .str "Message processed successfully"),
         ("messageId", (JValue.lookup kvs "messageId").getD .null),
         ("timestamp", .num env.nowMs)] ∧
    (∀ m, JValue.lookup kvs "messageId" = some m →
        JValue.lookup (echoBodyOf (echoDoPOST env).result) "messageId" = some m) ∧
    (∀ lab key, (lab, key) ∈ envelopeLabels → JValue.lookup kvs key = none →
        EchoLog.field lab (.str "N/A") ∈ (echoDoPOST env).logs) := by
  obtain ⟨hres, mid, hlogs⟩ := echoDoPOST_success_shape env b kvs hread hparse hprops
  refine ⟨by rw [hres]; rfl, ?_, ?_⟩
  · intro m hm
    rw [hres]
    simp only [JValue.lookup] at hm
    simp [echoSuccess, echoBodyOf, JValue.lookup, hm]
  · intro lab key hmem hnone
    rw [hlogs]
    simp only [envelopeLabels, List.mem_cons, List.not_mem_nil, or_false,
               Prod.mk.injEq] at hmem
    rcases hmem with ⟨rfl, rfl⟩ | ⟨rfl, rfl⟩ | ⟨rfl, rfl⟩ | ⟨rfl, rfl⟩ |
      ⟨rfl, rfl⟩ | ⟨rfl, rfl⟩ | ⟨rfl, rfl⟩ <;>
      simp [echoHeadLogs, echoTailLogs, envelopeField, hnone]

/-- Witness for the amended claim C4 at a concrete object body. -/
theorem echo_object_body_acknowledged_witness :
    (echoDoPOST echoObjEnv).result = .jsonResp 200 "application/json"
        [("status", .str "success"),
         ("message", .str "Message processed successfully"),
         ("messageId",
           (JValue.lookup [("messageId", .str "m1")] "messageId").getD .null),
         ("timestamp", .num echoObjEnv.nowMs)] :=
  (echo_object_body_acknowledged echoObjEnv "body-obj"
    [("messageId", .str "m1")] rfl rfl rfl).1

/-- Claim C6: the fault designation compares the uniform draw against
`failRate` with strict less-than, so for every draw in `[0, 1)`, a rate
of 0.0 designates success (any written response has status 200) and a
rate of 1.0 designates failure (any written response has a status among
500, 502, 503, 504). -/
theorem fault_failRate_edges (prev : ℕ) (env : FaultEnv)
    (h0 : 0 ≤ env.draw) (h1 : env.draw < 1) :
    (env.failRate = 0 →
       shouldFail env = false ∧
       ∀ logs resp, (faultDoPOST prev env).2 = .responded logs resp →
         resp.status = 200) ∧
    (env.failRate = 1 →
       shouldFail env = true ∧
       ∀ logs resp, (faultDoPOST prev env).2 = .responded logs resp →
         resp.status ∈ [500, 502, 503, 504]) := by
  constructor
  · intro hfr
    have hsf : shouldFail env = false := by
      simp [shouldFail, hfr]
      exact h0
    refine ⟨hsf, ?_⟩
    intro logs resp h
    rcases hr : env.readResult with e | b
    · simp [faultDoPOST, hr, faultExceptBlock] at h
    · rcases hx : extractMessageId env.parseResult with e | m
      · simp [faultDoPOST, hr, hx, faultExceptBlock] at h
      · simp [faultDoPOST, hr, hx, hsf] at h
        obtain ⟨-, h2⟩ := h
        rw [← h2]
  · intro hfr
    have hsf : shouldFail env = true := by
      simp [shouldFail, hfr]
      exact h1
    refine ⟨hsf, ?_⟩
    intro logs resp h
    rcases hr : env.readResult with e | b
    · simp [faultDoPOST, hr, faultExceptBlock] at h
    · rcases hx : extractMessageId env.parseResult with e | m
      · simp [faultDoPOST, hr, hx, faultExceptBlock] at h
      · simp [faultDoPOST, hr, hx, hsf] at h
        obtain ⟨-, h2⟩ := h
        rw [← h2]
        exact failure_types_status_mem env.choiceIdx

/-- Fault-server request under `failRate` 1 with the fourth failure
type drawn. -/
def alwaysFailEnv : FaultEnv :=
  ⟨1, 0, 1/2, 3, .ok "body", some (.obj []), "ts"⟩

/-- Witness for claim C6: at `failRate` 1 and draw one half, the
request is designated a failure and the written response carries
status 504. -/
theorem fault_failRate_edges_witness :
    shouldFail alwaysFailEnv = true ∧
    statusOf (faultDoPOST 0 alwaysFailEnv).2 = some 504 := by
  obtain ⟨hsf, -⟩ :=
    (fault_failRate_edges 0 alwaysFailEnv
        (by norm_num [alwaysFailEnv]) (by norm_num [alwaysFailEnv])).2 rfl
  have hr : alwaysFailEnv.readResult = Except.ok "body" := rfl
  have hp : extractMessageId alwaysFailEnv.parseResult = .ok (.str "unknown") := rfl
  refine ⟨hsf, ?_⟩
  simp only [faultDoPOST, hr, hp, hsf, eq_self_iff_true, if_true, statusOf]
  rfl

/-- Command line with an out-of-range fail rate and no demo flag. -/
def outOfRangeArgs : CliArgs := ⟨8080, 3/2, 0, false⟩

/-- Command line with the demo flag set alongside explicit fail-rate
and delay values. -/
def demoArgs : CliArgs := ⟨9090, 9/10, 7, true⟩

/-- Claim C7: after resolving the demo override, an out-of-range fail
rate makes startup exit with status 1 before the listener is
constructed or bound, while an in-range rate passes validation and
startup proceeds to bind with that configuration. -/
theorem startup_validates_failRate (a : CliArgs) :
    (¬ (0 ≤ (resolveDemo a).1.failRate ∧ (resolveDemo a).1.failRate ≤ 1) →
        (mainStartup a).1 = .error 1) ∧
    ((0 ≤ (resolveDemo a).1.failRate ∧ (resolveDemo a).1.failRate ≤ 1) →
        (mainStartup a).1 =
          .ok ⟨(resolveDemo a).1.port, (resolveDemo a).1.failRate,
               (resolveDemo a).1.delayMs⟩) := by
  constructor <;> intro h <;> simp [mainStartup, h]

/-- Witness for claim C7: `--fail-rate 1.5` exits with status 1. -/
theorem startup_validates_failRate_witness :
    (mainStartup outOfRangeArgs).1 = .error 1 :=
  (startup_validates_failRate outOfRangeArgs).1
    (by norm_num [resolveDemo, outOfRangeArgs])

/-- Claim C8: with the demo flag set, the resolved configuration has
fail rate 0.3 and delay 500 regardless of the other values supplied,
the demo notice is printed, and startup proceeds to bind with exactly
that configuration. -/
theorem demo_flag_forces_config (a : CliArgs) (h : a.demo = true) :
    (resolveDemo a).1.failRate = 3/10 ∧
    (resolveDemo a).1.delayMs = 500 ∧
    (resolveDemo a).2 = ["Demo mode: 30% failure rate, 500ms delay"] ∧
    (mainStartup a).1 = .ok ⟨a.port, 3/10, 500⟩ := by
  refine ⟨by simp [resolveDemo, h], by simp [resolveDemo, h],
          by simp [resolveDemo, h], ?_⟩
  simp [resolveDemo, mainStartup, h]
  norm_num

/-- Witness for claim C8 at a command line passing `--fail-rate 0.9`
and `--delay-ms 7` alongside `--demo`. -/
theorem demo_flag_forces_config_witness :
    demoArgs.demo = true ∧
    ((resolveDemo demoArgs).1.failRate = 3/10 ∧
     (resolveDemo demoArgs).1.delayMs = 500 ∧
     (resolveDemo demoArgs).2 = ["Demo mode: 30% failure rate, 500ms delay"] ∧
     (mainStartup demoArgs).1 = .ok ⟨demoArgs.port, 3/10, 500⟩) :=
  ⟨rfl, demo_flag_forces_config demoArgs rfl⟩

/-- Claim C10, counterexample: two requests sharing every random draw
(`failRate` 1, draw one half, third failure type) but with different
bodies do not share an outcome status — the JSON-object body is
answered 502, while the body `123` (a JSON number) makes the handler
raise at `.get` and write no response at all. -/
theorem fault_status_depends_on_body :
    statusOf (faultDoPOST 0 objBodyEnv).2 = some 502 ∧
    statusOf (faultDoPOST 0 numBodyEnv).2 = none ∧
    statusOf (faultDoPOST 0 objBodyEnv).2 ≠ statusOf (faultDoPOST 0 numBodyEnv).2 := by
  have h1 : statusOf (faultDoPOST 0 objBodyEnv).2 = some 502 := by
    norm_num [faultDoPOST, objBodyEnv, extractMessageId, shouldFail, failure_types,
              statusOf, JValue.lookup]
  have h2 : statusOf (faultDoPOST 0 numBodyEnv).2 = none := rfl
  exact ⟨h1, h2, by rw [h1, h2]; simp⟩

/-- Claim C10 (amended to bodies the handler survives, those that fail
to parse or parse to a dict): two requests with the same pseudo-random
draws receive the same designation and the same response status, whatever
their bodies, counters and clock values. -/
theorem fault_designation_body_independent
    (fr : ℚ) (dm : ℤ) (u : ℚ) (i : Fin 4) (prev1 prev2 : ℕ)
    (ts1 ts2 b1 b2 : String) (p1 p2 : Option JValue)
    (hp1 : parsesToObjOrFails p1 = true) (hp2 : parsesToObjOrFails p2 = true) :
    shouldFail ⟨fr, dm, u, i, .ok b1, p1, ts1⟩ =
      shouldFail ⟨fr, dm, u, i, .ok b2, p2, ts2⟩ ∧
    statusOf (faultDoPOST prev1 ⟨fr, dm, u, i, .ok b1, p1, ts1⟩).2 =
      statusOf (faultDoPOST prev2 ⟨fr, dm, u, i, .ok b2, p2, ts2⟩).2 := by
  obtain ⟨m1, hm1⟩ := extractMessageId_ok p1 hp1
  obtain ⟨m2, hm2⟩ := extractMessageId_ok p2 hp2
  refine ⟨rfl, ?_⟩
  by_cases hsf : (decide (u < fr) : Bool) = true <;>
    simp [faultDoPOST, hm1, hm2, statusOf, shouldFail, hsf]

/-- Witness for the amended claim C10: an object body and an unparsable
body with the same draws get the same designation and status. -/
theorem fault_designation_body_independent_witness :
    shouldFail objBodyEnv = shouldFail ⟨1, 0, 1/2, 2, .ok "other", none, "ts2"⟩ ∧
    statusOf (faultDoPOST 0 objBodyEnv).2 =
      statusOf (faultDoPOST 5 ⟨1, 0, 1/2, 2, .ok "other", none, "ts2"⟩).2 :=
  fault_designation_body_independent 1 0 (1/2) 2 0 5 "ts" "ts2" "body-a" "other"
    (some (.obj [("messageId", .str "a")])) none rfl rfl
